import Mathlib

set_option autoImplicit false

/-!
Shallow embedding of the code in `docs/source/user_guide/pipelines.ipynb`
(the EvalML pipelines user guide): the custom transformer `MyDropNullColumns`,
the pipeline class definitions and their `component_graph` class variables,
the pipeline instantiations appearing in the notebook, and the code-generation
round trip around `generate_pipeline_code`.

Modelling conventions:
* Python floats are modelled as rationals (`ℚ`).
* A pandas dataframe is a list of named columns; each cell is `Option Int`
  (`none` models a NaN/null cell, `some v` a non-null value).  `isnull()` of a
  cell is `Option.isNone`.  `pandas.Series.mean()` of the null indicators of a
  column is the rational `countNulls / length`; for a column with zero rows
  pandas returns NaN, and every comparison `NaN > 0`, `NaN >= t` is `False` —
  the model's `0 / 0 = 0` yields exactly the same `False` outcomes for the
  comparisons the code performs (`> 0`, and `>= t` with `t > 0`).
* Python dictionaries are association lists (insertion order preserved,
  `lookup` finds the first binding); Python values appearing in dictionaries
  are the inductive `PyVal`.
* A method mutating `self` is embedded as a function from the state to the
  updated state; `raise` is `Except.error` (so on a raise no updated state
  exists, mirroring that the constructor aborts before creating any state).
* `evalml.utils.infer_feature_types` and `_convert_woodwork_types_wrapper`
  only (re)infer the logical types of the columns; on the value level modelled
  here they are the identity on the dataframe.
-/

namespace EvalML

/-- A Python value as it appears in the notebook's dictionaries: a string, a
number, a list, or a nested dictionary. -/
inductive PyVal where
  | str (s : String)
  | num (q : ℚ)
  | list (elems : List PyVal)
  | dict (entries : List (String × PyVal))

/-- A dataframe cell: `none` is a null/NaN entry, `some v` a value. -/
abbrev Cell := Option Int

/-- A pandas dataframe: named columns in order, each a list of cells
(one per row). -/
abbrev DataFrame := List (String × List Cell)

/-- `X.isnull().mean()` for one column: the fraction of null cells, the
rational `countNulls / length` (`mkRat n d` is the rational `n / d`; the
lemma `percentNull_eq_div` below records the equality with the literal
division).  For an empty column `0 / 0 = 0`, which gives the same results as
pandas's NaN under the comparisons the code performs (see module
docstring). -/
def percentNull (col : List Cell) : ℚ :=
  mkRat (col.countP Option.isNone) col.length

/-- Python `d.update(u)`: existing keys are overwritten in place, new keys are
appended in the order of `u`. -/
def dictUpdate (d u : List (String × PyVal)) : List (String × PyVal) :=
  (d.map fun p =>
    match List.lookup p.1 u with
    | some v => (p.1, v)
    | none => p)
  ++ u.filter fun q => (List.lookup q.1 d).isNone

/-- The state of a `MyDropNullColumns` transformer instance: the `parameters`
dictionary and `random_seed` stored by `Transformer.__init__`, and the
`_cols_to_drop` attribute (`none` models Python `None`, the value set before
`fit` runs). -/
structure MyDropNullColumns where
  parameters : List (String × PyVal)
  random_seed : Int
  cols_to_drop : Option (List String)

namespace MyDropNullColumns

/-- The default value of the `pct_null_threshold` argument in the signature
`def __init__(self, pct_null_threshold=1.0, random_seed=0, **kwargs)`. -/
def defaultPctNullThreshold : ℚ := 1

/-- The default value of the `random_seed` argument of `__init__`. -/
def defaultRandomSeed : Int := 0

/-- `MyDropNullColumns.__init__`.  Raises `ValueError` when the threshold is
out of `[0, 1]`; otherwise builds the parameters dictionary (updated with the
extra keyword arguments) and stores `_cols_to_drop = None`.  Python's calling
convention makes it impossible for `kwargs` to contain the key
`"pct_null_threshold"`: such a keyword argument is bound to the named
parameter instead. -/
def init (pct_null_threshold : ℚ) (random_seed : Int)
    (kwargs : List (String × PyVal)) : Except String MyDropNullColumns :=
  if pct_null_threshold < 0 ∨ 1 < pct_null_threshold then
    Except.error "pct_null_threshold must be a float between 0 and 1, inclusive."
  else
    Except.ok
      { parameters := dictUpdate [("pct_null_threshold", PyVal.num pct_null_threshold)] kwargs
        random_seed := random_seed
        cols_to_drop := none }

/-- `MyDropNullColumns()` with no arguments: both defaults apply and `kwargs`
is empty. -/
def initDefault : Except String MyDropNullColumns :=
  init defaultPctNullThreshold defaultRandomSeed []

/-- `MyDropNullColumns.fit`: reads `pct_null_threshold` from the parameters
dictionary (a `KeyError` if absent or not a number), computes
`percent_null = X.isnull().mean()` per column, filters with `> 0` when the
threshold equals `0.0` and with `>= threshold` otherwise, and stores the
filtered column names as `_cols_to_drop`.  The Python method returns `self`;
the embedding returns the updated transformer state. -/
def fit (self : MyDropNullColumns) (X : DataFrame) :
    Except String MyDropNullColumns :=
  match List.lookup "pct_null_threshold" self.parameters with
  | some (PyVal.num pct_null_threshold) =>
      let percent_null : List (String × ℚ) := X.map fun c => (c.1, percentNull c.2)
      let null_cols : List (String × ℚ) :=
        if pct_null_threshold = 0 then
          percent_null.filter fun p => decide (0 < p.2)
        else
          percent_null.filter fun p => decide (pct_null_threshold ≤ p.2)
      Except.ok { self with cols_to_drop := some (null_cols.map Prod.fst) }
  | _ => Except.error "KeyError: pct_null_threshold"

/-- `MyDropNullColumns.transform`: `X.drop(columns=self._cols_to_drop)`.
pandas raises when `columns=None` (no labels given) and raises `KeyError`
when some listed label is not a column of `X`; otherwise it returns `X`
without the listed columns.  The embedding returns the (unchanged) state
together with the result, mirroring that the method reads but never writes
`self`. -/
def transform (self : MyDropNullColumns) (X : DataFrame) :
    Except String (MyDropNullColumns × DataFrame) :=
  match self.cols_to_drop with
  | none => Except.error "ValueError: need to specify labels to drop"
  | some cols =>
      if cols.all (fun c => X.any fun col => col.1 == c) then
        Except.ok (self, X.filter fun col => !(cols.contains col.1))
      else
        Except.error "KeyError: labels not contained in axis"

/-- The `_cols_to_drop` list produced by constructing a transformer with
threshold `t` (no extra kwargs, default seed) and fitting it on `X`;
`none` when construction or fitting raises. -/
def fittedColsToDrop (t : ℚ) (X : DataFrame) : Option (List String) :=
  match init t defaultRandomSeed [] with
  | Except.ok s =>
      match fit s X with
      | Except.ok s2 => s2.cols_to_drop
      | Except.error _ => none
  | Except.error _ => none

/-- Construct a transformer with threshold `t` (defaults otherwise), fit it
on `X`, then transform `X2` — the order in which a fitted pipeline applies
the component to fresh data. -/
def fitTransform (t : ℚ) (X X2 : DataFrame) :
    Except String (MyDropNullColumns × DataFrame) :=
  match init t defaultRandomSeed [] with
  | Except.ok s =>
      match fit s X with
      | Except.ok s2 => transform s2 X2
      | Except.error e => Except.error e
  | Except.error e => Except.error e

end MyDropNullColumns

/-- Whether a computation raised an exception. -/
def exceptIsError {α : Type} (e : Except String α) : Bool :=
  match e with
  | Except.error _ => true
  | Except.ok _ => false

/-- The `component_graph` class variable of
`CustomNonlinearMulticlassClassificationPipeline`: a dictionary mapping each
component's unique name to a list whose first element is the component's
class and whose remaining elements are the names of its parents. -/
def CustomNonlinearMulticlassClassificationPipeline.component_graph :
    List (String × List String) :=
  [("Imputer", ["Imputer"]),
   ("Encoder", ["One Hot Encoder", "Imputer"]),
   ("Random Forest Clf", ["Random Forest Classifier", "Encoder"]),
   ("Elastic Net Clf", ["Elastic Net Classifier", "Encoder"]),
   ("Final Estimator",
     ["Logistic Regression Classifier", "Random Forest Clf", "Elastic Net Clf"])]

/-- The keys of a component-graph dictionary, in declaration order. -/
def graphKeys (g : List (String × List String)) : List String := g.map Prod.fst

/-- The parent links of a component-graph entry value: the elements after the
leading component class. -/
def entryParents (v : List String) : List String := v.drop 1

/-- `p` is a declared parent of `c` in the component-graph dictionary `g`. -/
def parentOf (g : List (String × List String)) (p c : String) : Bool :=
  match List.lookup c g with
  | some v => (entryParents v).contains p
  | none => false

/-- `ord` is a topological fit/transform order for the component-graph
dictionary `g`: it lists exactly the keys of `g`, each once, and every
declared parent appears strictly before its child. -/
def IsTopoOrder (g : List (String × List String)) (ord : List String) : Prop :=
  ord.Nodup
  ∧ (∀ k ∈ graphKeys g, k ∈ ord)
  ∧ (∀ k ∈ ord, k ∈ graphKeys g)
  ∧ ∀ c ∈ ord, ∀ p ∈ ord, parentOf g p c = true →
      ord.indexOf p < ord.indexOf c

/-- A value is a two-level parameters dictionary: a dictionary whose every
entry maps a component name to a dictionary of
(parameter name, parameter value) pairs. -/
def isTwoLevelParamsDict (v : PyVal) : Bool :=
  match v with
  | PyVal.dict entries =>
      entries.all fun e =>
        match e.2 with
        | PyVal.dict _ => true
        | _ => false
  | _ => false

/-- The `parameters` argument of every pipeline instantiation appearing in
the notebook, in order of appearance, labelled by its call site.
`CustomMulticlassClassificationPipeline` and
`CustomNonlinearMulticlassClassificationPipeline` receive the empty
dictionary positionally; the `CustomPipeline` instantiations pass
`parameters=` explicitly. -/
def pipelineInstantiationParameters : List (String × PyVal) :=
  [("cell-7: CustomMulticlassClassificationPipeline", PyVal.dict []),
   ("cell-13: CustomPipeline", PyVal.dict []),
   ("cell-15: CustomPipeline",
     PyVal.dict
       [("Imputer",
          PyVal.dict
            [("categorical_impute_strategy", PyVal.str "most_frequent"),
             ("numeric_impute_strategy", PyVal.str "median")]),
        ("Logistic Regression Classifier",
          PyVal.dict
            [("penalty", PyVal.str "l2"),
             ("C", PyVal.num 1)])]),
   ("cell-18: CustomNonlinearMulticlassClassificationPipeline", PyVal.dict []),
   ("cell-34: CustomPipeline",
     PyVal.dict
       [("Imputer",
          PyVal.dict [("numeric_impute_strategy", PyVal.str "median")])])]

/-- A pipeline class definition appearing in the notebook: the class name,
the base class of its `class` header, and the value of its `component_graph`
class variable.  A component given as a reference to a class (such as
`NewTransformer` or `MyDropNullColumns`) is written by its identifier. -/
structure PipelineClassDef where
  name : String
  base : String
  component_graph : PyVal

/-- Whether a `component_graph` class variable is a list of components or a
dictionary of named components. -/
def isListOrDict (v : PyVal) : Bool :=
  match v with
  | PyVal.list _ => true
  | PyVal.dict _ => true
  | _ => false

/-- Every pipeline class definition in the notebook, in order of appearance
(`CustomPipeline` is redefined in cells 9, 11 (twice) and 34; the custom
component classes `NewTransformer` and `MyDropNullColumns` subclass
`Transformer` and are not pipeline classes). -/
def pipelineClassDefs : List PipelineClassDef :=
  [⟨"CustomMulticlassClassificationPipeline", "MulticlassClassificationPipeline",
     PyVal.list [PyVal.str "Imputer", PyVal.str "Random Forest Classifier"]⟩,
   ⟨"CustomNonlinearMulticlassClassificationPipeline",
     "MulticlassClassificationPipeline",
     PyVal.dict
       (CustomNonlinearMulticlassClassificationPipeline.component_graph.map
         fun e => (e.1, PyVal.list (e.2.map PyVal.str)))⟩,
   ⟨"CustomComponentMulticlassClassificationPipeline",
     "MulticlassClassificationPipeline",
     PyVal.list [PyVal.str "NewTransformer", PyVal.str "Random Forest Classifier"]⟩,
   ⟨"CustomPipeline", "MulticlassClassificationPipeline",
     PyVal.list
       [PyVal.str "Imputer", PyVal.str "One Hot Encoder",
        PyVal.str "Logistic Regression Classifier"]⟩,
   ⟨"CustomPipeline", "MulticlassClassificationPipeline",
     PyVal.list
       [PyVal.str "Imputer", PyVal.str "One Hot Encoder",
        PyVal.str "Standard Scaler", PyVal.str "Logistic Regression Classifier"]⟩,
   ⟨"CustomPipeline", "MulticlassClassificationPipeline",
     PyVal.list
       [PyVal.str "Imputer", PyVal.str "One Hot Encoder",
        PyVal.str "Standard Scaler", PyVal.str "Logistic Regression Classifier"]⟩,
   ⟨"CustomPipeline", "MulticlassClassificationPipeline",
     PyVal.list
       [PyVal.str "Imputer", PyVal.str "MyDropNullColumns",
        PyVal.str "DateTime Featurization Component", PyVal.str "One Hot Encoder",
        PyVal.str "Random Forest Classifier"]⟩]

/-! ### Code generation (`generate_pipeline_code`)

The body of `evalml.pipelines.utils.generate_pipeline_code` is not part of
this excerpt — only its call site in the last notebook cell — so the
definitions below are modelled from the spec's words: the function "requires
a pipeline instance as the input" and returns "string Python code to
recreate this pipeline, which can then be saved and run elsewhere with
EvalML"; "code generation is not yet supported for nonlinear pipelines".
-/

/-- The single-quote character Python string literals are written with. -/
def quoteChar : Char := '\''

/-- An opening curly brace, starting a Python dictionary literal. -/
def lbraceChar : Char := Char.ofNat 123

/-- A closing curly brace, ending a Python dictionary literal. -/
def rbraceChar : Char := Char.ofNat 125

/-- Modelled from the spec: the pipeline instance `generate_pipeline_code`
receives, carrying the data the generated code must reproduce — the custom
name, the linear component graph (code generation is not yet supported for
nonlinear pipelines) and the two-level parameters dictionary (component name
to parameter name/value pairs, with string-valued parameters). -/
structure PipelineInstance where
  name : String
  component_graph : List String
  parameters : List (String × List (String × String))

/-- A Python single-quoted string literal. -/
def genQuoted (s : String) : List Char :=
  quoteChar :: (s.data ++ [quoteChar])

/-- The items after the first of a Python list literal, each preceded by a
comma, followed by the closing bracket. -/
def genStrListTail (xs : List String) : List Char :=
  match xs with
  | [] => [']']
  | x :: xs => ',' :: (genQuoted x ++ genStrListTail xs)

/-- A Python list literal of string literals. -/
def genStrListChars (l : List String) : List Char :=
  match l with
  | [] => ['[', ']']
  | x :: xs => '[' :: (genQuoted x ++ genStrListTail xs)

/-- One `key: value` pair of an inner parameters dictionary. -/
def genEntryChars (e : String × String) : List Char :=
  genQuoted e.1 ++ (':' :: genQuoted e.2)

/-- The entries after the first of an inner dictionary literal. -/
def genInnerTail (es : List (String × String)) : List Char :=
  match es with
  | [] => [rbraceChar]
  | e :: es => ',' :: (genEntryChars e ++ genInnerTail es)

/-- A Python dictionary literal of parameter name/value pairs. -/
def genInnerDict (es : List (String × String)) : List Char :=
  match es with
  | [] => [lbraceChar, rbraceChar]
  | e :: es => lbraceChar :: (genEntryChars e ++ genInnerTail es)

/-- One `component name: {parameters}` pair of the two-level dictionary. -/
def genOuterEntry (e : String × List (String × String)) : List Char :=
  genQuoted e.1 ++ (':' :: genInnerDict e.2)

/-- The entries after the first of the two-level dictionary literal. -/
def genOuterTail (es : List (String × List (String × String))) : List Char :=
  match es with
  | [] => [rbraceChar]
  | e :: es => ',' :: (genOuterEntry e ++ genOuterTail es)

/-- The Python literal of the whole two-level parameters dictionary. -/
def genParamsDict (es : List (String × List (String × String))) : List Char :=
  match es with
  | [] => [lbraceChar, rbraceChar]
  | e :: es => lbraceChar :: (genOuterEntry e ++ genOuterTail es)

/-- The generated constructor call up to the component graph argument. -/
def pipelineCodeHead : String :=
  "pipeline = MulticlassClassificationPipeline(component_graph="

/-- The generated text between the component graph and the parameters. -/
def pipelineCodeMid1 : String := ",parameters="

/-- The generated text between the parameters and the custom name. -/
def pipelineCodeMid2 : String := ",custom_name="

/-- Modelled from the spec: `generate_pipeline_code` requires a pipeline
instance as its single input and returns string Python code that re-creates
the pipeline — a `pipeline = MulticlassClassificationPipeline(...)`
constructor call carrying the component graph, the two-level parameters
dictionary and the custom name.  (It does not emit the definitions of custom
components; the notebook notes their code must be supplied separately.) -/
def generate_pipeline_code (p : PipelineInstance) : String :=
  String.mk
    (pipelineCodeHead.data ++ genStrListChars p.component_graph
      ++ pipelineCodeMid1.data ++ genParamsDict p.parameters
      ++ pipelineCodeMid2.data ++ genQuoted p.name ++ [')'])

/-- Consume an exact literal from the input. -/
def parseExact : List Char → List Char → Option (List Char)
  | [], cs => some cs
  | _ :: _, [] => none
  | l :: ls, c :: cs => if c = l then parseExact ls cs else none

/-- Read a single-quoted Python string literal. -/
def parseQuoted (cs : List Char) : Option (String × List Char) :=
  match cs with
  | c :: rest =>
      if c = quoteChar then
        match rest.dropWhile (fun d => d != quoteChar) with
        | d :: rest2 =>
            if d = quoteChar then
              some (String.mk (rest.takeWhile fun d => d != quoteChar), rest2)
            else none
        | [] => none
      else none
  | [] => none

/-- Read the items after the first of a list literal (fuelled recursion; the
fuel only needs to exceed the number of remaining items). -/
def parseStrListTail (fuel : Nat) (cs : List Char) :
    Option (List String × List Char) :=
  match fuel with
  | 0 => none
  | fuel + 1 =>
      match cs with
      | c :: rest =>
          if c = ']' then some ([], rest)
          else if c = ',' then
            match parseQuoted rest with
            | some (s, r) =>
                match parseStrListTail fuel r with
                | some (ss, r2) => some (s :: ss, r2)
                | none => none
            | none => none
          else none
      | [] => none

/-- Read a Python list literal of string literals. -/
def parseStrList (cs : List Char) : Option (List String × List Char) :=
  match cs with
  | c :: rest =>
      if c = '[' then
        match rest with
        | d :: _ =>
            if d = ']' then some ([], rest.tail)
            else
              match parseQuoted rest with
              | some (s, r) =>
                  match parseStrListTail (r.length + 1) r with
                  | some (ss, r2) => some (s :: ss, r2)
                  | none => none
              | none => none
        | [] => none
      else none
  | [] => none

/-- Read one `key: value` pair of an inner dictionary. -/
def parseEntry (cs : List Char) : Option ((String × String) × List Char) :=
  match parseQuoted cs with
  | some (k, r) =>
      match r with
      | c :: r2 =>
          if c = ':' then
            match parseQuoted r2 with
            | some (v, r3) => some ((k, v), r3)
            | none => none
          else none
      | [] => none
  | none => none

/-- Read the entries after the first of an inner dictionary literal. -/
def parseInnerTail (fuel : Nat) (cs : List Char) :
    Option (List (String × String) × List Char) :=
  match fuel with
  | 0 => none
  | fuel + 1 =>
      match cs with
      | c :: rest =>
          if c = rbraceChar then some ([], rest)
          else if c = ',' then
            match parseEntry rest with
            | some (e, r) =>
                match parseInnerTail fuel r with
                | some (es, r2) => some (e :: es, r2)
                | none => none
            | none => none
          else none
      | [] => none

/-- Read an inner dictionary literal of parameter name/value pairs. -/
def parseInnerDict (cs : List Char) :
    Option (List (String × String) × List Char) :=
  match cs with
  | c :: rest =>
      if c = lbraceChar then
        match rest with
        | d :: _ =>
            if d = rbraceChar then some ([], rest.tail)
            else
              match parseEntry rest with
              | some (e, r) =>
                  match parseInnerTail (r.length + 1) r with
                  | some (es, r2) => some (e :: es, r2)
                  | none => none
              | none => none
        | [] => none
      else none
  | [] => none

/-- Read one `component name: {parameters}` pair of the outer dictionary. -/
def parseOuterEntry (cs : List Char) :
    Option ((String × List (String × String)) × List Char) :=
  match parseQuoted cs with
  | some (k, r) =>
      match r with
      | c :: r2 =>
          if c = ':' then
            match parseInnerDict r2 with
            | some (d, r3) => some ((k, d), r3)
            | none => none
          else none
      | [] => none
  | none => none

/-- Read the entries after the first of the outer dictionary literal. -/
def parseOuterTail (fuel : Nat) (cs : List Char) :
    Option (List (String × List (String × String)) × List Char) :=
  match fuel with
  | 0 => none
  | fuel + 1 =>
      match cs with
      | c :: rest =>
          if c = rbraceChar then some ([], rest)
          else if c = ',' then
            match parseOuterEntry rest with
            | some (e, r) =>
                match parseOuterTail fuel r with
                | some (es, r2) => some (e :: es, r2)
                | none => none
            | none => none
          else none
      | [] => none

/-- Read the two-level parameters dictionary literal. -/
def parseParamsDict (cs : List Char) :
    Option (List (String × List (String × String)) × List Char) :=
  match cs with
  | c :: rest =>
      if c = lbraceChar then
        match rest with
        | d :: _ =>
            if d = rbraceChar then some ([], rest.tail)
            else
              match parseOuterEntry rest with
              | some (e, r) =>
                  match parseOuterTail (r.length + 1) r with
                  | some (es, r2) => some (e :: es, r2)
                  | none => none
              | none => none
        | [] => none
      else none
  | [] => none

/-- Modelled from the spec: the effect of saving the generated string and
running it elsewhere with EvalML (the notebook's `exec(code)`), namely
constructing the pipeline the code describes — read back as the
`MulticlassClassificationPipeline` constructor call the generator emits;
`none` when the string is not such a call. -/
def execPythonCode (code : String) : Option PipelineInstance :=
  match parseExact pipelineCodeHead.data code.data with
  | some r1 =>
      match parseStrList r1 with
      | some (cg, r2) =>
          match parseExact pipelineCodeMid1.data r2 with
          | some r3 =>
              match parseParamsDict r3 with
              | some (ps, r4) =>
                  match parseExact pipelineCodeMid2.data r4 with
                  | some r5 =>
                      match parseQuoted r5 with
                      | some (nm, r6) =>
                          match r6 with
                          | [')'] => some ⟨nm, cg, ps⟩
                          | _ => none
                      | none => none
                  | none => none
              | none => none
          | none => none
      | none => none
  | none => none

/-- A string the generator can embed in a single-quoted Python literal:
it contains no quote character. -/
def wfNoQuote (s : String) : Bool :=
  s.data.all fun d => d != quoteChar

/-- Every string of the pipeline instance (name, component names, parameter
names and values) can be emitted into a single-quoted Python literal. -/
def wfPipeline (p : PipelineInstance) : Bool :=
  wfNoQuote p.name
    && p.component_graph.all wfNoQuote
    && p.parameters.all fun e =>
        wfNoQuote e.1 && e.2.all fun kv => wfNoQuote kv.1 && wfNoQuote kv.2

/-- `percentNull` is the fraction of null cells written as a division of
rationals, as pandas's `mean` computes it. -/
theorem percentNull_eq_div (col : List Cell) :
    percentNull col = (col.countP Option.isNone : ℚ) / (col.length : ℚ) := by
  simp [percentNull, Rat.mkRat_eq_div]

/-- A key absent from every binding of an association list is not found. -/
theorem lookup_eq_none_of_all_ne (u : List (String × PyVal)) (k : String)
    (h : ∀ p ∈ u, p.1 ≠ k) : List.lookup k u = none := by
  induction u with
  | nil => rfl
  | cons q u ih =>
      have hq : q.1 ≠ k := h q (List.mem_cons_self q u)
      have hbeq : (k == q.1) = false := by
        refine beq_eq_false_iff_ne.mpr fun hk => hq hk.symm
      rw [List.lookup, hbeq]
      exact ih fun p hp => h p (List.mem_cons_of_mem q hp)

/-- In the parameters dictionary built by `__init__`, the
`"pct_null_threshold"` entry holds the threshold that was passed, whatever
extra keyword arguments were given (Python's calling convention prevents
`kwargs` from binding that key). -/
theorem lookup_dictUpdate_threshold (v : PyVal) (kwargs : List (String × PyVal))
    (hk : ∀ p ∈ kwargs, p.1 ≠ "pct_null_threshold") :
    List.lookup "pct_null_threshold"
      (dictUpdate [("pct_null_threshold", v)] kwargs) = some v := by
  have hnone := lookup_eq_none_of_all_ne kwargs "pct_null_threshold" hk
  simp [dictUpdate, hnone, List.lookup]

/-- C1: `MyDropNullColumns.__init__` raises `ValueError` exactly when the
threshold `t` satisfies `t < 0` or `t > 1`; for every `t` in the closed
interval `[0, 1]` (boundaries included) it returns normally with
`parameters["pct_null_threshold"] = t` and `_cols_to_drop = None`.  When it
raises, the `Except.error` branch carries no transformer state, mirroring
that the Python constructor aborts before any attribute is created. -/
theorem init_raises_iff_out_of_bounds (t : ℚ) (rs : Int)
    (kwargs : List (String × PyVal))
    (hk : ∀ p ∈ kwargs, p.1 ≠ "pct_null_threshold") :
    ((∃ msg, MyDropNullColumns.init t rs kwargs = Except.error msg) ↔
      (t < 0 ∨ 1 < t))
    ∧ (0 ≤ t → t ≤ 1 →
        ∃ s, MyDropNullColumns.init t rs kwargs = Except.ok s
          ∧ List.lookup "pct_null_threshold" s.parameters = some (PyVal.num t)
          ∧ s.cols_to_drop = none) := by
  unfold MyDropNullColumns.init
  by_cases hcond : t < 0 ∨ 1 < t
  · rw [if_pos hcond]
    refine ⟨⟨fun _ => hcond, fun _ => ⟨_, rfl⟩⟩, fun h0 h1 => absurd hcond ?_⟩
    push_neg
    exact ⟨h0, h1⟩
  · rw [if_neg hcond]
    refine ⟨⟨fun ⟨msg, hmsg⟩ => absurd hmsg (by simp), fun hc => absurd hc hcond⟩,
      fun _ _ => ⟨_, rfl, lookup_dictUpdate_threshold _ kwargs hk, rfl⟩⟩

/-- A column has null fraction at least `1` exactly when it is non-empty and
all of its cells are null (for the empty column pandas's mean is NaN and the
comparison is false, as is `0 ≥ 1` in the model). -/
theorem one_le_percentNull_iff (col : List Cell) :
    1 ≤ percentNull col ↔ col ≠ [] ∧ col.all Option.isNone = true := by
  rw [percentNull_eq_div]
  rcases eq_or_ne col ([] : List Cell) with h | h
  · subst h
    simp
  · have hlen : (0:ℚ) < (col.length : ℚ) := by
      exact_mod_cast List.length_pos.mpr h
    rw [one_le_div hlen]
    constructor
    · intro hle
      have hle2 : col.length ≤ col.countP Option.isNone := by exact_mod_cast hle
      have heq : col.countP Option.isNone = col.length :=
        le_antisymm (List.countP_le_length _) hle2
      refine ⟨h, List.all_eq_true.mpr fun x hx => ?_⟩
      exact List.countP_eq_length.mp heq x hx
    · rintro ⟨-, hall⟩
      have heq : col.countP Option.isNone = col.length :=
        List.countP_eq_length.mpr fun a ha => List.all_eq_true.mp hall a ha
      rw [heq]

/-- Inside `[0, 1]` the constructor succeeds and produces exactly the
parameters dictionary `{"pct_null_threshold": t}` with `_cols_to_drop =
None`. -/
theorem init_ok_of_in_bounds (t : ℚ) (rs : Int) (h : ¬ (t < 0 ∨ 1 < t)) :
    MyDropNullColumns.init t rs [] =
      Except.ok ⟨[("pct_null_threshold", PyVal.num t)], rs, none⟩ := by
  unfold MyDropNullColumns.init
  rw [if_neg h]
  rfl

/-- Running `fit` on the state the constructor builds stores the filtered
column names, leaving the parameters and seed untouched. -/
theorem fit_after_init (t : ℚ) (rs : Int) (X : DataFrame) :
    MyDropNullColumns.fit ⟨[("pct_null_threshold", PyVal.num t)], rs, none⟩ X =
      Except.ok ⟨[("pct_null_threshold", PyVal.num t)], rs,
        some ((if t = 0 then
            (X.map fun c => (c.1, percentNull c.2)).filter fun p => decide (0 < p.2)
          else
            (X.map fun c => (c.1, percentNull c.2)).filter fun p => decide (t ≤ p.2)).map
          Prod.fst)⟩ := rfl

/-- C2 fails as stated on a dataframe with a zero-row column: a transformer
constructed with no arguments (threshold `1.0`) fits without recording the
column `"a"`, although every one of the (zero) values of `"a"` is null, so
the claimed "if and only if every one of its values is null" does not hold.
pandas computes `mean` of an empty column as NaN and `NaN >= 1.0` is false
(in the model, `0 ≥ 1` is false). -/
theorem fit_vacuous_all_null_counterexample :
    MyDropNullColumns.fittedColsToDrop MyDropNullColumns.defaultPctNullThreshold
        [("a", ([] : List Cell))] = some []
      ∧ ([] : List Cell).all Option.isNone = true := by decide

/-- C2 (amended): after `fit(X)` with threshold `t = parameters["pct_null_threshold"]`,
`_cols_to_drop` is exactly the list of columns of `X` whose null fraction is
strictly greater than `0` when `t == 0.0`, and at least `t` otherwise; the
parameters and seed are unchanged (the method returns `self`); the
no-argument constructor's threshold default is `1.0`, and at `t = 1` a column
name is recorded if and only if some column of `X` with that name is
non-empty and has every value null (amendment: the original claim omitted
"non-empty", which fails for zero-row columns). -/
theorem fit_cols_to_drop_spec (t : ℚ) (rs : Int) (X : DataFrame)
    (s s2 : MyDropNullColumns)
    (hinit : MyDropNullColumns.init t rs [] = Except.ok s)
    (hfit : MyDropNullColumns.fit s X = Except.ok s2) :
    s2.cols_to_drop = some
      ((if t = 0 then
          (X.map fun c => (c.1, percentNull c.2)).filter fun p => decide (0 < p.2)
        else
          (X.map fun c => (c.1, percentNull c.2)).filter fun p => decide (t ≤ p.2)).map
        Prod.fst)
    ∧ s2.parameters = s.parameters
    ∧ s2.random_seed = s.random_seed
    ∧ MyDropNullColumns.defaultPctNullThreshold = 1
    ∧ (t = 1 →
        ∀ name : String,
          (∃ L, s2.cols_to_drop = some L ∧ name ∈ L) ↔
          (∃ col, (name, col) ∈ X ∧ col ≠ [] ∧ col.all Option.isNone = true)) := by
  by_cases hc : t < 0 ∨ 1 < t
  · rw [MyDropNullColumns.init, if_pos hc] at hinit
    cases hinit
  · rw [init_ok_of_in_bounds t rs hc] at hinit
    cases hinit
    rw [fit_after_init t rs X] at hfit
    cases hfit
    refine ⟨rfl, rfl, rfl, rfl, ?_⟩
    rintro rfl name
    rw [if_neg one_ne_zero]
    constructor
    · rintro ⟨L, hL, hname⟩
      injection hL with hL
      subst hL
      rw [List.mem_map] at hname
      obtain ⟨p, hp, rfl⟩ := hname
      rw [List.mem_filter] at hp
      obtain ⟨hpm, hdec⟩ := hp
      rw [List.mem_map] at hpm
      obtain ⟨c, hc2, rfl⟩ := hpm
      rw [decide_eq_true_eq] at hdec
      obtain ⟨hne, hall⟩ := (one_le_percentNull_iff c.2).mp hdec
      exact ⟨c.2, by simpa using hc2, hne, hall⟩
    · rintro ⟨col, hmem, hne, hall⟩
      refine ⟨_, rfl, ?_⟩
      rw [List.mem_map]
      refine ⟨(name, percentNull col), ?_, rfl⟩
      rw [List.mem_filter]
      refine ⟨List.mem_map.mpr ⟨(name, col), hmem, rfl⟩, ?_⟩
      rw [decide_eq_true_eq]
      exact (one_le_percentNull_iff col).mpr ⟨hne, hall⟩

/-- Witness for `fit_cols_to_drop_spec`: threshold `1`, a dataframe with one
all-null column and one non-null column. -/
theorem fit_cols_to_drop_spec_witness :
    MyDropNullColumns.init 1 0 [] =
        Except.ok ⟨[("pct_null_threshold", PyVal.num 1)], 0, none⟩
      ∧ MyDropNullColumns.fit
          ⟨[("pct_null_threshold", PyVal.num 1)], 0, none⟩
          [("a", [none]), ("b", [some 5])] =
        Except.ok ⟨[("pct_null_threshold", PyVal.num 1)], 0, some ["a"]⟩
      ∧ (⟨[("pct_null_threshold", PyVal.num 1)], 0,
            some ["a"]⟩ : MyDropNullColumns).cols_to_drop = some
          ((if (1:ℚ) = 0 then
              (([("a", [none]), ("b", [some 5])] : DataFrame).map
                fun c => (c.1, percentNull c.2)).filter fun p => decide (0 < p.2)
            else
              (([("a", [none]), ("b", [some 5])] : DataFrame).map
                fun c => (c.1, percentNull c.2)).filter fun p => decide ((1:ℚ) ≤ p.2)).map
            Prod.fst)
      ∧ ((1:ℚ) = 1 →
          ∀ name : String,
            (∃ L, (⟨[("pct_null_threshold", PyVal.num 1)], 0,
                some ["a"]⟩ : MyDropNullColumns).cols_to_drop = some L ∧ name ∈ L) ↔
            (∃ col, (name, col) ∈ ([("a", [none]), ("b", [some 5])] : DataFrame)
              ∧ col ≠ [] ∧ col.all Option.isNone = true)) := by
  refine ⟨rfl, rfl, ?_⟩
  have h := fit_cols_to_drop_spec 1 0 [("a", [none]), ("b", [some 5])]
    ⟨[("pct_null_threshold", PyVal.num 1)], 0, none⟩
    ⟨[("pct_null_threshold", PyVal.num 1)], 0, some ["a"]⟩ rfl rfl
  exact ⟨h.1, h.2.2.2.2⟩

/-- For a threshold inside `[0, 1]`, construct-then-fit succeeds and records
exactly the filtered column names. -/
theorem fittedColsToDrop_eq (t : ℚ) (X : DataFrame) (h0 : 0 ≤ t) (h1 : t ≤ 1) :
    MyDropNullColumns.fittedColsToDrop t X = some
      ((if t = 0 then
          (X.map fun c => (c.1, percentNull c.2)).filter fun p => decide (0 < p.2)
        else
          (X.map fun c => (c.1, percentNull c.2)).filter fun p => decide (t ≤ p.2)).map
        Prod.fst) := by
  have hc : ¬ (t < 0 ∨ 1 < t) := by
    push_neg
    exact ⟨h0, h1⟩
  simp only [MyDropNullColumns.fittedColsToDrop, init_ok_of_in_bounds t _ hc,
    fit_after_init t _ X]

/-- C5: dropping is antitone in the threshold.  For `0 < t1 ≤ t2 ≤ 1` the
columns recorded by a fit at threshold `t2` are a subset of those recorded at
threshold `t1`, and for every `t` in `(0, 1]` the columns recorded at `t` are
a subset of those recorded at threshold `0.0`. -/
theorem fittedColsToDrop_antitone (X : DataFrame) (t1 t2 : ℚ)
    (h0 : 0 < t1) (h12 : t1 ≤ t2) (h21 : t2 ≤ 1) :
    (∃ L1 L2, MyDropNullColumns.fittedColsToDrop t1 X = some L1
      ∧ MyDropNullColumns.fittedColsToDrop t2 X = some L2
      ∧ ∀ c ∈ L2, c ∈ L1)
    ∧ ∀ t : ℚ, 0 < t → t ≤ 1 →
        ∃ L L0, MyDropNullColumns.fittedColsToDrop t X = some L
          ∧ MyDropNullColumns.fittedColsToDrop 0 X = some L0
          ∧ ∀ c ∈ L, c ∈ L0 := by
  constructor
  · refine ⟨_, _, fittedColsToDrop_eq t1 X h0.le (h12.trans h21),
      fittedColsToDrop_eq t2 X (h0.le.trans h12) h21, ?_⟩
    rw [if_neg h0.ne', if_neg (h0.trans_le h12).ne']
    intro c hc
    rw [List.mem_map] at hc ⊢
    obtain ⟨p, hp, rfl⟩ := hc
    refine ⟨p, ?_, rfl⟩
    rw [List.mem_filter] at hp ⊢
    refine ⟨hp.1, ?_⟩
    rw [decide_eq_true_eq] at hp ⊢
    exact h12.trans hp.2
  · intro t ht0 ht1
    refine ⟨_, _, fittedColsToDrop_eq t X ht0.le ht1,
      fittedColsToDrop_eq 0 X le_rfl zero_le_one, ?_⟩
    rw [if_neg ht0.ne', if_pos rfl]
    intro c hc
    rw [List.mem_map] at hc ⊢
    obtain ⟨p, hp, rfl⟩ := hc
    refine ⟨p, ?_, rfl⟩
    rw [List.mem_filter] at hp ⊢
    refine ⟨hp.1, ?_⟩
    rw [decide_eq_true_eq] at hp ⊢
    exact ht0.trans_le hp.2

/-- Witness for `fittedColsToDrop_antitone` at `t1 = 1/2`, `t2 = 1`. -/
theorem fittedColsToDrop_antitone_witness :
    (0:ℚ) < mkRat 1 2 ∧ (mkRat 1 2 : ℚ) ≤ 1 ∧ (1:ℚ) ≤ 1
    ∧ ((∃ L1 L2,
        MyDropNullColumns.fittedColsToDrop (mkRat 1 2)
            [("a", [none]), ("b", [none, some 1])] = some L1
          ∧ MyDropNullColumns.fittedColsToDrop 1
              [("a", [none]), ("b", [none, some 1])] = some L2
          ∧ ∀ c ∈ L2, c ∈ L1)
      ∧ ∀ t : ℚ, 0 < t → t ≤ 1 →
          ∃ L L0, MyDropNullColumns.fittedColsToDrop t
              [("a", [none]), ("b", [none, some 1])] = some L
            ∧ MyDropNullColumns.fittedColsToDrop 0
                [("a", [none]), ("b", [none, some 1])] = some L0
            ∧ ∀ c ∈ L, c ∈ L0) :=
  ⟨by decide, by decide, by decide,
    fittedColsToDrop_antitone [("a", [none]), ("b", [none, some 1])]
      (mkRat 1 2) 1 (by decide) (by decide) (by decide)⟩

/-- C3 fails as stated when `X2` lacks a column recorded in `_cols_to_drop`:
after a successful fit on `[("a", all-null)]` (which records `"a"`),
transforming `[("b", ...)]` raises (`pandas.DataFrame.drop` raises `KeyError`
for labels not contained in the axis), so no result equal to "`X2` with the
listed columns removed" is produced. -/
theorem transform_missing_column_counterexample :
    MyDropNullColumns.fittedColsToDrop 1 [("a", [none])] = some ["a"]
    ∧ exceptIsError
        (MyDropNullColumns.fitTransform 1 [("a", [none])] [("b", [some 1])]) =
      true := by decide

/-- C3 (amended): for every dataframe `X2` that contains every column listed
in `_cols_to_drop` (amendment: the original claim asserted this for every
`X2`; when a listed column is absent pandas `drop` raises `KeyError`),
`transform` returns the unchanged transformer state paired with `X2` with
exactly the listed columns removed: every column of `X2` whose name is not
listed appears in the result (with all rows and values identical, order
preserved), and every column of the result is an unchanged column of `X2`
whose name is not listed. -/
theorem transform_drops_exactly (s : MyDropNullColumns) (cols : List String)
    (X2 : DataFrame)
    (hc : s.cols_to_drop = some cols)
    (hall : (cols.all fun c => X2.any fun col => col.1 == c) = true) :
    MyDropNullColumns.transform s X2 =
      Except.ok (s, X2.filter fun col => !(cols.contains col.1))
    ∧ (∀ col ∈ X2, col.1 ∉ cols →
        col ∈ X2.filter fun col => !(cols.contains col.1))
    ∧ (∀ col ∈ X2.filter fun col => !(cols.contains col.1),
        col ∈ X2 ∧ col.1 ∉ cols) := by
  refine ⟨?_, ?_, ?_⟩
  · simp only [MyDropNullColumns.transform, hc, hall, if_true]
  · intro col hcol hnot
    rw [List.mem_filter]
    refine ⟨hcol, ?_⟩
    simpa using hnot
  · intro col hcol
    rw [List.mem_filter] at hcol
    refine ⟨hcol.1, ?_⟩
    simpa using hcol.2

/-- Witness for `transform_drops_exactly`: the fitted state drops `"a"`, and
`X2` has columns `"a"` and `"b"`. -/
theorem transform_drops_exactly_witness :
    (⟨[("pct_null_threshold", PyVal.num 1)], 0,
        some ["a"]⟩ : MyDropNullColumns).cols_to_drop = some ["a"]
    ∧ ((["a"] : List String).all fun c =>
        ([("a", [some 1]), ("b", [some 2])] : DataFrame).any fun col =>
          col.1 == c) = true
    ∧ (MyDropNullColumns.transform
          ⟨[("pct_null_threshold", PyVal.num 1)], 0, some ["a"]⟩
          [("a", [some 1]), ("b", [some 2])] =
        Except.ok (⟨[("pct_null_threshold", PyVal.num 1)], 0, some ["a"]⟩,
          ([("a", [some 1]), ("b", [some 2])] : DataFrame).filter fun col =>
            !((["a"] : List String).contains col.1))
      ∧ (∀ col ∈ ([("a", [some 1]), ("b", [some 2])] : DataFrame),
          col.1 ∉ (["a"] : List String) →
          col ∈ ([("a", [some 1]), ("b", [some 2])] : DataFrame).filter fun col =>
            !((["a"] : List String).contains col.1))
      ∧ (∀ col ∈ ([("a", [some 1]), ("b", [some 2])] : DataFrame).filter
            (fun col => !((["a"] : List String).contains col.1)),
          col ∈ ([("a", [some 1]), ("b", [some 2])] : DataFrame)
            ∧ col.1 ∉ (["a"] : List String))) :=
  ⟨rfl, by decide,
    transform_drops_exactly
      ⟨[("pct_null_threshold", PyVal.num 1)], 0, some ["a"]⟩ ["a"]
      [("a", [some 1]), ("b", [some 2])] rfl (by decide)⟩

/-- Witness for `init_raises_iff_out_of_bounds` at `t = 1/2` with one extra
keyword argument. -/
theorem init_raises_iff_out_of_bounds_witness :
    (∀ p ∈ [("extra", PyVal.num 7)], p.1 ≠ "pct_null_threshold")
    ∧ (((∃ msg, MyDropNullColumns.init (mkRat 1 2) 0 [("extra", PyVal.num 7)] =
          Except.error msg) ↔ ((mkRat 1 2) < 0 ∨ 1 < (mkRat 1 2)))
      ∧ (0 ≤ (mkRat 1 2) → (mkRat 1 2) ≤ 1 →
          ∃ s, MyDropNullColumns.init (mkRat 1 2) 0 [("extra", PyVal.num 7)] =
              Except.ok s
            ∧ List.lookup "pct_null_threshold" s.parameters =
                some (PyVal.num (mkRat 1 2))
            ∧ s.cols_to_drop = none)) :=
  ⟨by decide,
    init_raises_iff_out_of_bounds (mkRat 1 2) 0 [("extra", PyVal.num 7)] (by decide)⟩

/-- Consuming a literal that prefixes the input leaves exactly the rest. -/
theorem parseExact_append (lit rest : List Char) :
    parseExact lit (lit ++ rest) = some rest := by
  induction lit with
  | nil => rfl
  | cons c lit ih => simp [parseExact, ih]

/-- `takeWhile`/`dropWhile` split a list of non-stop characters followed by a
stop character exactly at the stop character. -/
theorem span_at_stop (c : Char) :
    ∀ (l : List Char) (rest : List Char), (l.all fun d => d != c) = true →
      ((l ++ c :: rest).takeWhile fun d => d != c) = l
      ∧ ((l ++ c :: rest).dropWhile fun d => d != c) = c :: rest := by
  intro l
  induction l with
  | nil =>
      intro rest _
      constructor
      · simp [List.takeWhile_cons]
      · simp [List.dropWhile_cons]
  | cons a l ih =>
      intro rest hl
      rw [List.all_cons, Bool.and_eq_true] at hl
      obtain ⟨ha, hl⟩ := hl
      obtain ⟨ht, hd⟩ := ih rest hl
      constructor
      · simpa [List.takeWhile_cons, ha] using ht
      · simpa [List.dropWhile_cons, ha] using hd

/-- Reading back a generated single-quoted literal recovers the string and
leaves the rest untouched. -/
theorem parseQuoted_gen (s : String) (rest : List Char)
    (h : wfNoQuote s = true) :
    parseQuoted (genQuoted s ++ rest) = some (s, rest) := by
  have hassoc : genQuoted s ++ rest
      = quoteChar :: (s.data ++ quoteChar :: rest) := by
    simp [genQuoted]
  obtain ⟨ht, hd⟩ := span_at_stop quoteChar s.data rest h
  rw [hassoc]
  simp only [parseQuoted, if_pos rfl, ht, hd]
  simp

/-- The generated tail of a list literal has at least one character per
item. -/
theorem genStrListTail_length (xs : List String) :
    xs.length ≤ (genStrListTail xs).length := by
  induction xs with
  | nil => simp [genStrListTail]
  | cons x xs ih =>
      simp only [genStrListTail, List.length_cons, List.length_append]
      omega

/-- Reading back the generated tail of a list literal recovers the remaining
items, for any sufficient fuel. -/
theorem parseStrListTail_gen :
    ∀ (xs : List String) (fuel : Nat) (rest : List Char),
      xs.length < fuel → (xs.all wfNoQuote) = true →
      parseStrListTail fuel (genStrListTail xs ++ rest) = some (xs, rest) := by
  intro xs
  induction xs with
  | nil =>
      intro fuel rest hf _
      cases fuel with
      | zero => omega
      | succ f =>
          simp only [genStrListTail, List.cons_append, List.nil_append,
            parseStrListTail]
          simp
  | cons x xs ih =>
      intro fuel rest hf hwf
      cases fuel with
      | zero => omega
      | succ f =>
          rw [List.all_cons, Bool.and_eq_true] at hwf
          obtain ⟨hx, hxs⟩ := hwf
          have hassoc : genStrListTail (x :: xs) ++ rest
              = ',' :: (genQuoted x ++ (genStrListTail xs ++ rest)) := by
            simp [genStrListTail, List.append_assoc]
          rw [hassoc]
          rw [List.length_cons] at hf
          simp only [parseStrListTail, if_neg (by decide : ¬ (',' = ']')),
            if_pos rfl, parseQuoted_gen x _ hx]
          rw [ih f rest (by omega) hxs]
          simp

/-- Reading back a generated list literal recovers the list of strings. -/
theorem parseStrList_gen (l : List String) (rest : List Char)
    (hwf : (l.all wfNoQuote) = true) :
    parseStrList (genStrListChars l ++ rest) = some (l, rest) := by
  cases l with
  | nil =>
      simp only [genStrListChars, List.cons_append, List.nil_append,
        parseStrList]
      simp
  | cons x xs =>
      rw [List.all_cons, Bool.and_eq_true] at hwf
      obtain ⟨hx, hxs⟩ := hwf
      have hassoc : genStrListChars (x :: xs) ++ rest
          = '[' :: (quoteChar :: (x.data ++ quoteChar :: (genStrListTail xs ++ rest))) := by
        simp [genStrListChars, genQuoted, List.append_assoc]
      rw [hassoc]
      have hq : parseQuoted
          (quoteChar :: (x.data ++ quoteChar :: (genStrListTail xs ++ rest)))
          = some (x, genStrListTail xs ++ rest) := by
        have := parseQuoted_gen x (genStrListTail xs ++ rest) hx
        simpa [genQuoted, List.append_assoc] using this
      have hfuel : xs.length < (genStrListTail xs ++ rest).length + 1 := by
        have h1 := genStrListTail_length xs
        simp only [List.length_append]
        omega
      simp only [parseStrList, if_pos rfl,
        if_neg (by decide : ¬ (quoteChar = ']')), hq,
        parseStrListTail_gen xs _ _ hfuel hxs]
      simp

/-- Reading back a generated `key: value` pair recovers the pair. -/
theorem parseEntry_gen (e : String × String) (rest : List Char)
    (h1 : wfNoQuote e.1 = true) (h2 : wfNoQuote e.2 = true) :
    parseEntry (genEntryChars e ++ rest) = some (e, rest) := by
  have hassoc : genEntryChars e ++ rest
      = genQuoted e.1 ++ (':' :: (genQuoted e.2 ++ rest)) := by
    simp [genEntryChars, List.append_assoc]
  rw [hassoc]
  simp only [parseEntry, parseQuoted_gen e.1 _ h1, if_pos rfl,
    parseQuoted_gen e.2 _ h2]
  simp

/-- The generated tail of an inner dictionary has at least one character per
entry. -/
theorem genInnerTail_length (es : List (String × String)) :
    es.length ≤ (genInnerTail es).length := by
  induction es with
  | nil => simp [genInnerTail]
  | cons e es ih =>
      simp only [genInnerTail, List.length_cons, List.length_append]
      omega

/-- Reading back the generated tail of an inner dictionary recovers the
remaining entries, for any sufficient fuel. -/
theorem parseInnerTail_gen :
    ∀ (es : List (String × String)) (fuel : Nat) (rest : List Char),
      es.length < fuel →
      (es.all fun kv => wfNoQuote kv.1 && wfNoQuote kv.2) = true →
      parseInnerTail fuel (genInnerTail es ++ rest) = some (es, rest) := by
  intro es
  induction es with
  | nil =>
      intro fuel rest hf _
      cases fuel with
      | zero => omega
      | succ f =>
          simp only [genInnerTail, List.cons_append, List.nil_append,
            parseInnerTail]
          simp
  | cons e es ih =>
      intro fuel rest hf hwf
      cases fuel with
      | zero => omega
      | succ f =>
          rw [List.all_cons, Bool.and_eq_true] at hwf
          obtain ⟨he, hes⟩ := hwf
          rw [Bool.and_eq_true] at he
          have hassoc : genInnerTail (e :: es) ++ rest
              = ',' :: (genEntryChars e ++ (genInnerTail es ++ rest)) := by
            simp [genInnerTail, List.append_assoc]
          rw [hassoc]
          rw [List.length_cons] at hf
          simp only [parseInnerTail,
            if_neg (by decide : ¬ (',' = rbraceChar)), if_pos rfl,
            parseEntry_gen e _ he.1 he.2]
          rw [ih f rest (by omega) hes]
          simp

/-- Reading back a generated inner dictionary literal recovers its
entries. -/
theorem parseInnerDict_gen (es : List (String × String)) (rest : List Char)
    (hwf : (es.all fun kv => wfNoQuote kv.1 && wfNoQuote kv.2) = true) :
    parseInnerDict (genInnerDict es ++ rest) = some (es, rest) := by
  cases es with
  | nil =>
      simp only [genInnerDict, List.cons_append, List.nil_append,
        parseInnerDict]
      simp
  | cons e es =>
      rw [List.all_cons, Bool.and_eq_true] at hwf
      obtain ⟨he, hes⟩ := hwf
      rw [Bool.and_eq_true] at he
      have hassoc : genInnerDict (e :: es) ++ rest
          = lbraceChar :: (quoteChar ::
              (e.1.data ++ quoteChar ::
                (':' :: (genQuoted e.2 ++ (genInnerTail es ++ rest))))) := by
        simp [genInnerDict, genEntryChars, genQuoted, List.append_assoc]
      have hE : parseEntry
          (quoteChar :: (e.1.data ++ quoteChar ::
            (':' :: (genQuoted e.2 ++ (genInnerTail es ++ rest)))))
          = some (e, genInnerTail es ++ rest) := by
        have := parseEntry_gen e (genInnerTail es ++ rest) he.1 he.2
        simpa [genEntryChars, genQuoted, List.append_assoc] using this
      have hfuel : es.length < (genInnerTail es ++ rest).length + 1 := by
        have := genInnerTail_length es
        simp only [List.length_append]
        omega
      rw [hassoc]
      simp only [parseInnerDict, if_pos rfl,
        if_neg (by decide : ¬ (quoteChar = rbraceChar)), hE]
      rw [parseInnerTail_gen es _ rest hfuel hes]
      simp

/-- Reading back a generated `component: {parameters}` pair recovers the
pair. -/
theorem parseOuterEntry_gen (e : String × List (String × String))
    (rest : List Char) (h1 : wfNoQuote e.1 = true)
    (h2 : (e.2.all fun kv => wfNoQuote kv.1 && wfNoQuote kv.2) = true) :
    parseOuterEntry (genOuterEntry e ++ rest) = some (e, rest) := by
  have hassoc : genOuterEntry e ++ rest
      = genQuoted e.1 ++ (':' :: (genInnerDict e.2 ++ rest)) := by
    simp [genOuterEntry, List.append_assoc]
  rw [hassoc]
  simp only [parseOuterEntry, parseQuoted_gen e.1 _ h1, if_pos rfl,
    parseInnerDict_gen e.2 rest h2]
  simp

/-- The generated tail of the outer dictionary has at least one character
per entry. -/
theorem genOuterTail_length (es : List (String × List (String × String))) :
    es.length ≤ (genOuterTail es).length := by
  induction es with
  | nil => simp [genOuterTail]
  | cons e es ih =>
      simp only [genOuterTail, List.length_cons, List.length_append]
      omega

/-- Reading back the generated tail of the outer dictionary recovers the
remaining entries, for any sufficient fuel. -/
theorem parseOuterTail_gen :
    ∀ (es : List (String × List (String × String))) (fuel : Nat)
      (rest : List Char),
      es.length < fuel →
      (es.all fun e => wfNoQuote e.1
        && e.2.all fun kv => wfNoQuote kv.1 && wfNoQuote kv.2) = true →
      parseOuterTail fuel (genOuterTail es ++ rest) = some (es, rest) := by
  intro es
  induction es with
  | nil =>
      intro fuel rest hf _
      cases fuel with
      | zero => omega
      | succ f =>
          simp only [genOuterTail, List.cons_append, List.nil_append,
            parseOuterTail]
          simp
  | cons e es ih =>
      intro fuel rest hf hwf
      cases fuel with
      | zero => omega
      | succ f =>
          rw [List.all_cons, Bool.and_eq_true] at hwf
          obtain ⟨he, hes⟩ := hwf
          rw [Bool.and_eq_true] at he
          have hassoc : genOuterTail (e :: es) ++ rest
              = ',' :: (genOuterEntry e ++ (genOuterTail es ++ rest)) := by
            simp [genOuterTail, List.append_assoc]
          rw [hassoc]
          rw [List.length_cons] at hf
          simp only [parseOuterTail,
            if_neg (by decide : ¬ (',' = rbraceChar)), if_pos rfl,
            parseOuterEntry_gen e _ he.1 he.2]
          rw [ih f rest (by omega) hes]
          simp

/-- Reading back the generated two-level parameters dictionary recovers all
its entries. -/
theorem parseParamsDict_gen (es : List (String × List (String × String)))
    (rest : List Char)
    (hwf : (es.all fun e => wfNoQuote e.1
      && e.2.all fun kv => wfNoQuote kv.1 && wfNoQuote kv.2) = true) :
    parseParamsDict (genParamsDict es ++ rest) = some (es, rest) := by
  cases es with
  | nil =>
      simp only [genParamsDict, List.cons_append, List.nil_append,
        parseParamsDict]
      simp
  | cons e es =>
      rw [List.all_cons, Bool.and_eq_true] at hwf
      obtain ⟨he, hes⟩ := hwf
      rw [Bool.and_eq_true] at he
      have hassoc : genParamsDict (e :: es) ++ rest
          = lbraceChar :: (quoteChar ::
              (e.1.data ++ quoteChar ::
                (':' :: (genInnerDict e.2 ++ (genOuterTail es ++ rest))))) := by
        simp [genParamsDict, genOuterEntry, genQuoted, List.append_assoc]
      have hE : parseOuterEntry
          (quoteChar :: (e.1.data ++ quoteChar ::
            (':' :: (genInnerDict e.2 ++ (genOuterTail es ++ rest)))))
          = some (e, genOuterTail es ++ rest) := by
        have := parseOuterEntry_gen e (genOuterTail es ++ rest) he.1 he.2
        simpa [genOuterEntry, genQuoted, List.append_assoc] using this
      have hfuel : es.length < (genOuterTail es ++ rest).length + 1 := by
        have := genOuterTail_length es
        simp only [List.length_append]
        omega
      rw [hassoc]
      simp only [parseParamsDict, if_pos rfl,
        if_neg (by decide : ¬ (quoteChar = rbraceChar)), hE]
      rw [parseOuterTail_gen es _ rest hfuel hes]
      simp

/-- C8: the code-generation round trip.  `generate_pipeline_code` takes a
pipeline instance as its single input and returns a string of Python code;
executing that code re-creates a pipeline equal to the input instance
(provided every string of the instance fits in a single-quoted Python
literal).  Both `generate_pipeline_code` and the execution of the generated
code are modelled from the spec, the routine's body being absent from the
excerpt. -/
theorem generate_pipeline_code_roundtrip (p : PipelineInstance)
    (h : wfPipeline p = true) :
    execPythonCode (generate_pipeline_code p) = some p := by
  rw [wfPipeline, Bool.and_eq_true, Bool.and_eq_true] at h
  obtain ⟨⟨hname, hcg⟩, hps⟩ := h
  have hdata : (generate_pipeline_code p).data
      = pipelineCodeHead.data ++ (genStrListChars p.component_graph
        ++ (pipelineCodeMid1.data ++ (genParamsDict p.parameters
          ++ (pipelineCodeMid2.data ++ (genQuoted p.name ++ [')']))))) := by
    simp [generate_pipeline_code, List.append_assoc]
  simp only [execPythonCode, hdata, parseExact_append,
    parseStrList_gen p.component_graph _ hcg,
    parseParamsDict_gen p.parameters _ hps,
    parseQuoted_gen p.name _ hname]

/-- Witness for `generate_pipeline_code_roundtrip` at the notebook's
`pipeline_instance` (the `CustomPipeline` of the last cell, with
`MyDropNullColumns` written by its identifier). -/
theorem generate_pipeline_code_roundtrip_witness :
    wfPipeline
        ⟨"Custom Pipeline",
         ["Imputer", "MyDropNullColumns", "DateTime Featurization Component",
          "One Hot Encoder", "Random Forest Classifier"],
         [("Imputer", [("numeric_impute_strategy", "median")])]⟩ = true
    ∧ execPythonCode
        (generate_pipeline_code
          ⟨"Custom Pipeline",
           ["Imputer", "MyDropNullColumns", "DateTime Featurization Component",
            "One Hot Encoder", "Random Forest Classifier"],
           [("Imputer", [("numeric_impute_strategy", "median")])]⟩) =
      some
        ⟨"Custom Pipeline",
         ["Imputer", "MyDropNullColumns", "DateTime Featurization Component",
          "One Hot Encoder", "Random Forest Classifier"],
         [("Imputer", [("numeric_impute_strategy", "median")])]⟩ :=
  ⟨by decide, generate_pipeline_code_roundtrip _ (by decide)⟩

/-- A successful association-list lookup finds an actual binding. -/
theorem mem_of_lookup_eq_some {β : Type} :
    ∀ (l : List (String × β)) (k : String) (v : β),
      List.lookup k l = some v → (k, v) ∈ l := by
  intro l
  induction l with
  | nil => intro k v h; cases h
  | cons a l ih =>
      intro k v h
      rw [List.lookup] at h
      cases hk : (k == a.1) with
      | false =>
          rw [hk] at h
          exact List.mem_cons_of_mem a (ih k v h)
      | true =>
          rw [hk] at h
          injection h with h
          have hke : k = a.1 := beq_iff_eq.mp hk
          have : (k, v) = a := by
            cases a with
            | mk a1 a2 =>
                cases hke
                cases h
                rfl
          rw [this]
          exact List.mem_cons_self a l

/-- When every declared parent link of `g` points at a key, a `parentOf`
edge has both endpoints among the keys. -/
theorem parentOf_endpoints_mem_keys (g : List (String × List String))
    (p c : String)
    (hpk : ∀ entry ∈ g, ∀ q ∈ entryParents entry.2, q ∈ graphKeys g)
    (h : parentOf g p c = true) : p ∈ graphKeys g ∧ c ∈ graphKeys g := by
  rw [parentOf] at h
  cases hl : List.lookup c g with
  | none => rw [hl] at h; cases h
  | some v =>
      rw [hl] at h
      have hmem := mem_of_lookup_eq_some g c v hl
      refine ⟨hpk (c, v) hmem p ?_, List.mem_map.mpr ⟨(c, v), hmem, rfl⟩⟩
      simpa using h

/-- C4: in the `component_graph` dictionary of
`CustomNonlinearMulticlassClassificationPipeline` every value is a non-empty
list (its head is the component's class), every element after the head is a
key of the dictionary, the induced parent relation is acyclic (no component
reaches itself through parent links), and the graph admits a topological
fit/transform order. -/
theorem nonlinear_component_graph_is_dag :
    (∀ entry ∈ CustomNonlinearMulticlassClassificationPipeline.component_graph,
      entry.2 ≠ [])
    ∧ (∀ entry ∈ CustomNonlinearMulticlassClassificationPipeline.component_graph,
        ∀ p ∈ entryParents entry.2,
          p ∈ graphKeys CustomNonlinearMulticlassClassificationPipeline.component_graph)
    ∧ (∀ a : String,
        ¬ Relation.TransGen
          (fun p c =>
            parentOf CustomNonlinearMulticlassClassificationPipeline.component_graph
              p c = true) a a)
    ∧ ∃ ord,
        IsTopoOrder CustomNonlinearMulticlassClassificationPipeline.component_graph
          ord := by
  have hpk : ∀ entry ∈ CustomNonlinearMulticlassClassificationPipeline.component_graph,
      ∀ p ∈ entryParents entry.2,
        p ∈ graphKeys CustomNonlinearMulticlassClassificationPipeline.component_graph := by
    decide
  have htopo : IsTopoOrder CustomNonlinearMulticlassClassificationPipeline.component_graph
      ["Imputer", "Encoder", "Random Forest Clf", "Elastic Net Clf",
       "Final Estimator"] := by
    unfold IsTopoOrder
    decide
  refine ⟨by decide, hpk, ?_,
    ⟨["Imputer", "Encoder", "Random Forest Clf", "Elastic Net Clf",
      "Final Estimator"], htopo⟩⟩
  set ord := ["Imputer", "Encoder", "Random Forest Clf", "Elastic Net Clf",
    "Final Estimator"] with hord
  have hstep : ∀ p c,
      parentOf CustomNonlinearMulticlassClassificationPipeline.component_graph
        p c = true → ord.indexOf p < ord.indexOf c := by
    intro p c h
    obtain ⟨hp, hc⟩ := parentOf_endpoints_mem_keys _ p c hpk h
    exact htopo.2.2.2 c (htopo.2.1 c hc) p (htopo.2.1 p hp) h
  have hmono : ∀ a b,
      Relation.TransGen
        (fun p c =>
          parentOf CustomNonlinearMulticlassClassificationPipeline.component_graph
            p c = true) a b →
      ord.indexOf a < ord.indexOf b := by
    intro a b h
    induction h with
    | single h => exact hstep _ _ h
    | tail _ h ih => exact lt_trans ih (hstep _ _ h)
  intro a ha
  exact lt_irrefl _ (hmono a a ha)

/-- C6: every pipeline instantiation appearing in the notebook passes a
`parameters` argument that is a two-level dictionary — each top-level key a
component name mapped to a dictionary of (parameter name, parameter value)
pairs, the empty dictionary being the trivial case — and the notebook has
exactly five such instantiations. -/
theorem all_instantiation_parameters_two_level :
    (pipelineInstantiationParameters.all fun site =>
      isTwoLevelParamsDict site.2) = true
    ∧ pipelineInstantiationParameters.length = 5 := by decide

/-- C7: every pipeline class defined in the notebook subclasses
`MulticlassClassificationPipeline` and declares a `component_graph` class
variable that is either a list of components or a dictionary of named
components; the notebook defines exactly seven pipeline classes. -/
theorem all_pipeline_classes_wellformed :
    (pipelineClassDefs.all fun d =>
      d.base == "MulticlassClassificationPipeline"
        && isListOrDict d.component_graph) = true
    ∧ pipelineClassDefs.length = 7 := by decide

end EvalML
